import Mathlib

/-!
Shallow embedding of `src/register_user.py` (knapscen-register-users).

The script resolves customer/role references, inserts a user row into a
MySQL `users` table inside a transaction, recovers the generated id by
re-querying on the unique email, commits, and publishes a JSON event to
NATS JetStream.  We model the environment as an association list, the
database as explicit state, the connection as a committed/pending pair
(commit and rollback copy one side onto the other), and every externally
visible step as an `Action` recorded in a trace.  Fallible store/broker
operations that depend on the outside world (a generic store error during
the identifier-recovery read, NATS connect failure, JetStream publish
rejection) are driven by an explicit `Faults` record.
-/

set_option autoImplicit false

namespace RegisterUser

/-- Process environment: ordered list of `(name, value)` bindings. -/
abbrev Env := List (String × String)

/-- `os.getenv name`: `none` when unset. -/
def getenv (env : Env) (name : String) : Option String :=
  (env.find? (fun p => p.1 == name)).map (fun p => p.2)

/-- Python truthiness of an optional string: `None` and `""` are falsy. -/
def truthy : Option String → Bool
  | none => false
  | some s => !(s == "")

/-- Error kinds of the spec taxonomy; the script raises
`UserRegistrationError` with distinguishable messages, classified here. -/
inductive ErrKind where
  | ConfigurationMissing
  | MissingReference
  | ReferenceNotFound
  | DuplicateUser
  | WriteFailed
  | PublishFailed
  | UnexpectedError
  deriving Repr, DecidableEq

structure RegErr where
  kind : ErrKind
  msg : String
  deriving Repr, DecidableEq

/-- `exOk r = some a` iff `r` succeeded with `a`. -/
def exOk {α : Type} : Except RegErr α → Option α
  | Except.ok a => some a
  | Except.error _ => none

/-- The error kind of a failed result, `none` on success. -/
def exKind {α : Type} : Except RegErr α → Option ErrKind
  | Except.ok _ => none
  | Except.error e => some e.kind

structure UserInfo where
  name : String
  email : String
  customer_id : String
  role_id : String
  deriving Repr, DecidableEq

structure DatabaseConfig where
  host : String
  port : Nat
  user : String
  password : String
  database : String
  deriving Repr, DecidableEq

structure NATSConfig where
  server : String
  stream : String
  subject : String
  user : String
  password : String
  deriving Repr, DecidableEq

/-- A row of the `users` table.  `id` and `created_at` are assigned by the
store at insert time. -/
structure UserRow where
  id : String
  customer_id : String
  role_id : String
  name : String
  email : String
  created_at : Nat
  deriving Repr, DecidableEq

/-- Database state: the three tables the script touches plus the store's
generators for ids and `created_at` timestamps.  `customers` and `roles`
are `(id, name)` pairs in result-set order. -/
structure DB where
  users : List UserRow
  customers : List (String × String)
  roles : List (String × String)
  nextId : Nat
  nextTime : Nat
  deriving Repr, DecidableEq

/-- A pymysql connection with an open transaction: `committed` is the
durable state, `pending` the transaction-local view.  `commit` copies
pending over committed, `rollback` the reverse. -/
structure Conn where
  committed : DB
  pending : DB
  deriving Repr, DecidableEq

/-- Externally visible steps, recorded in run traces. -/
inductive Action where
  | storeConnect
  | storeClose
  | queryCustomer (name : String)
  | queryRole (name : String)
  | execInsert
  | queryLastInsertId
  | queryRecoverId (email : String)
  | commit
  | rollback
  | natsConnect
  | jsPublish (userId : String)
  | natsClose
  deriving Repr, DecidableEq

/-- Environment-driven failures of the external collaborators. -/
structure Faults where
  recoverySelectFails : Bool
  natsConnectFails : Bool
  jsPublishFails : Bool
  deriving Repr, DecidableEq

/-- Lower-casing (`str.lower()` for the ASCII variable names used here),
written over the character list so it evaluates by kernel reduction. -/
def lowerStr (s : String) : String := String.mk (s.data.map Char.toLower)

/-- Upper-casing, inverse of `lowerStr` on the variable names used here. -/
def upperStr (s : String) : String := String.mk (s.data.map Char.toUpper)

def parseNatAux : List Char → Nat → Option Nat
  | [], acc => some acc
  | c :: cs, acc =>
    if c.isDigit then parseNatAux cs (acc * 10 + (c.toNat - '0'.toNat)) else none

/-- Python `int(...)` on the decimal strings used for DB_PORT; `none`
models the `ValueError` escape. -/
def pyInt (s : String) : Option Nat :=
  match s.data with
  | [] => none
  | c :: cs => parseNatAux (c :: cs) 0

/-- `get_env_var`: returns the value (or default when unset) and raises
when a required variable is falsy. -/
def get_env_var (env : Env) (name : String) (required : Bool) (dflt : Option String) :
    Except RegErr (Option String) :=
  let value : Option String :=
    match getenv env name with
    | some v => some v
    | none => dflt
  if required && !(truthy value) then
    Except.error ⟨ErrKind.ConfigurationMissing,
      "Required environment variable " ++ name ++ " is not set"⟩
  else
    Except.ok value

def get_database_config (env : Env) : Except RegErr DatabaseConfig :=
  match get_env_var env "DB_HOST" true none with
  | Except.error e => Except.error e
  | Except.ok host =>
  match get_env_var env "DB_PORT" true (some "3306") with
  | Except.error e => Except.error e
  | Except.ok port =>
  match pyInt (port.getD "") with
  | none => Except.error ⟨ErrKind.UnexpectedError, "invalid DB_PORT"⟩
  | some portN =>
  match get_env_var env "DB_USER" true none with
  | Except.error e => Except.error e
  | Except.ok user =>
  match get_env_var env "DB_PASSWORD" true none with
  | Except.error e => Except.error e
  | Except.ok password =>
  match get_env_var env "DB_NAME" true none with
  | Except.error e => Except.error e
  | Except.ok database =>
    Except.ok ⟨host.getD "", portN, user.getD "", password.getD "", database.getD ""⟩

def get_nats_config (env : Env) : Except RegErr NATSConfig :=
  match get_env_var env "NATS_SERVER" true none with
  | Except.error e => Except.error e
  | Except.ok server =>
  match get_env_var env "NATS_STREAM" true none with
  | Except.error e => Except.error e
  | Except.ok stream =>
  match get_env_var env "NATS_SUBJECT" true none with
  | Except.error e => Except.error e
  | Except.ok subject =>
  match get_env_var env "NATS_USER" true none with
  | Except.error e => Except.error e
  | Except.ok user =>
  match get_env_var env "NATS_PASSWORD" true none with
  | Except.error e => Except.error e
  | Except.ok password =>
    Except.ok ⟨server.getD "", stream.getD "", subject.getD "", user.getD "", password.getD ""⟩

/-- `SELECT id FROM corporate_customers WHERE name = %s` + `fetchone`:
the first row of the result set, `ReferenceNotFound` when empty. -/
def lookup_customer_id (db : DB) (customer_name : String) :
    Except RegErr String × List Action :=
  (match (db.customers.filter (fun p => p.2 == customer_name)).head? with
   | none => Except.error ⟨ErrKind.ReferenceNotFound,
       "Customer " ++ customer_name ++ " not found"⟩
   | some p => Except.ok p.1,
   [Action.queryCustomer customer_name])

/-- `SELECT id FROM user_roles WHERE role_name = %s` + `fetchone`. -/
def lookup_role_id (db : DB) (role_name : String) :
    Except RegErr String × List Action :=
  (match (db.roles.filter (fun p => p.2 == role_name)).head? with
   | none => Except.error ⟨ErrKind.ReferenceNotFound,
       "Role " ++ role_name ++ " not found"⟩
   | some p => Except.ok p.1,
   [Action.queryRole role_name])

/-- `get_user_info`: required USER_NAME / USER_EMAIL, then for each of
customer and role use the id when truthy, else look the name up
(`get_env_var` with `required=False` returns the raw value, so the
reference variables are read with plain `getenv`). -/
def get_user_info (env : Env) (db : DB) : Except RegErr UserInfo × List Action :=
  match get_env_var env "USER_NAME" true none with
  | Except.error e => (Except.error e, [])
  | Except.ok nameV =>
  match get_env_var env "USER_EMAIL" true none with
  | Except.error e => (Except.error e, [])
  | Except.ok emailV =>
    let customer_id := getenv env "CUSTOMER_ID"
    let customer_name := getenv env "CUSTOMER_NAME"
    if !(truthy customer_id) && !(truthy customer_name) then
      (Except.error ⟨ErrKind.MissingReference,
        "Either CUSTOMER_ID or CUSTOMER_NAME must be provided"⟩, [])
    else
      let step1 :=
        if truthy customer_name && !(truthy customer_id) then
          lookup_customer_id db (customer_name.getD "")
        else
          (Except.ok (customer_id.getD ""), [])
      match step1 with
      | (Except.error e, tr1) => (Except.error e, tr1)
      | (Except.ok cid, tr1) =>
        let role_id := getenv env "ROLE_ID"
        let role_name := getenv env "ROLE_NAME"
        if !(truthy role_id) && !(truthy role_name) then
          (Except.error ⟨ErrKind.MissingReference,
            "Either ROLE_ID or ROLE_NAME must be provided"⟩, tr1)
        else
          let step2 :=
            if truthy role_name && !(truthy role_id) then
              lookup_role_id db (role_name.getD "")
            else
              (Except.ok (role_id.getD ""), [])
          match step2 with
          | (Except.error e, tr2) => (Except.error e, tr1 ++ tr2)
          | (Except.ok rid, tr2) =>
            (Except.ok ⟨nameV.getD "", emailV.getD "", cid, rid⟩, tr1 ++ tr2)

/-- Character-list test that `pat` starts `s`. -/
def charsStartsWith : List Char → List Char → Bool
  | _, [] => true
  | [], _ :: _ => false
  | c :: s, p :: ps => (c == p) && charsStartsWith s ps

/-- Character-list substring test. -/
def charsContains (s pat : List Char) : Bool :=
  match s with
  | [] => charsStartsWith [] pat
  | _ :: s2 => charsStartsWith s pat || charsContains s2 pat

/-- Python `pat in s` substring test. -/
def strContains (s pat : String) : Bool :=
  charsContains s.data pat.data

/-- The MySQL 1062 message raised for a violation of the unique key on
`users.email`. -/
def dupEntryMsg (value : String) : String :=
  "Duplicate entry" ++ " " ++ value ++ " for key users.email"

/-- The handler condition on line 207:
`"Duplicate entry" in str(e) and "email" in str(e)`. -/
def isDupEmailMsg (m : String) : Bool :=
  strContains m "Duplicate entry" && strContains m "email"

/-- The `users` table after a successful
`INSERT INTO users (customer_id, role_id, name, email)`: the store
appends a row with the generated id and `created_at`. -/
def insertedDB (db : DB) (ui : UserInfo) : DB :=
  { db with
    users := db.users ++
      [⟨"uid-" ++ toString db.nextId, ui.customer_id, ui.role_id,
        ui.name, ui.email, db.nextTime⟩],
    nextId := db.nextId + 1,
    nextTime := db.nextTime + 1 }

/-- `ORDER BY created_at DESC LIMIT 1` over a result set: the row with
maximal `created_at` (first such row on ties). -/
def maxByCreated : List UserRow → Option UserRow
  | [] => none
  | r :: rs =>
    match maxByCreated rs with
    | none => some r
    | some m => if r.created_at ≥ m.created_at then some r else some m

/-- `SELECT id FROM users WHERE email = %s ORDER BY created_at DESC
LIMIT 1` + `fetchone`. -/
def recoverUserId (rows : List UserRow) (email : String) : Option String :=
  (maxByCreated (rows.filter (fun r => r.email == email))).map (fun r => r.id)

deriving instance DecidableEq for Except

structure InsertOut where
  result : Except RegErr String
  conn : Conn
  trace : List Action
  deriving Repr, DecidableEq

/-- `insert_user`: INSERT inside the open transaction; on a duplicate
email the store raises `IntegrityError` and the handler re-raises
(classified by `isDupEmailMsg`) WITHOUT a rollback; otherwise read
`LAST_INSERT_ID()`, recover the id by the email re-query, commit and
return the id; any generic exception in that region rolls back. -/
def insert_user (conn : Conn) (ui : UserInfo) (f : Faults) : InsertOut :=
  if conn.pending.users.any (fun r => r.email == ui.email) then
    if isDupEmailMsg (dupEntryMsg ui.email) then
      { result := Except.error ⟨ErrKind.DuplicateUser,
          "User with email " ++ ui.email ++ " already exists"⟩,
        conn := conn,
        trace := [Action.execInsert] }
    else
      { result := Except.error ⟨ErrKind.WriteFailed,
          "Database integrity error: " ++ dupEntryMsg ui.email⟩,
        conn := conn,
        trace := [Action.execInsert] }
  else
    if f.recoverySelectFails then
      { result := Except.error ⟨ErrKind.WriteFailed, "Failed to insert user"⟩,
        conn := ⟨conn.committed, conn.committed⟩,
        trace := [Action.execInsert, Action.queryLastInsertId,
          Action.queryRecoverId ui.email, Action.rollback] }
    else
      match recoverUserId (insertedDB conn.pending ui).users ui.email with
      | none =>
        { result := Except.error ⟨ErrKind.WriteFailed, "Failed to insert user"⟩,
          conn := ⟨conn.committed, conn.committed⟩,
          trace := [Action.execInsert, Action.queryLastInsertId,
            Action.queryRecoverId ui.email, Action.rollback] }
      | some uid =>
        { result := Except.ok uid,
          conn := ⟨insertedDB conn.pending ui, insertedDB conn.pending ui⟩,
          trace := [Action.execInsert, Action.queryLastInsertId,
            Action.queryRecoverId ui.email, Action.commit] }

/-- The user-attribute variables included in event data (line 220). -/
def userVars : List String :=
  ["USER_NAME", "USER_EMAIL", "CUSTOMER_ID", "CUSTOMER_NAME", "ROLE_ID", "ROLE_NAME"]

/-- The loop body of `prepare_event_data`: a truthy variable contributes
its value under the lower-cased name. -/
def evVar (env : Env) (v : String) : Option (String × String) :=
  if truthy (getenv env v) then some (lowerStr v, (getenv env v).getD "") else none

/-- `prepare_event_data`: the event `data` dict in insertion order. -/
def prepare_event_data (env : Env) : List (String × String) :=
  userVars.filterMap (evVar env)

/-- The JSON event payload handed to `js.publish` (lines 245-250). -/
structure Payload where
  event_type : String
  user_id : String
  timestamp : String
  data : List (String × String)
  deriving Repr, DecidableEq

structure PublishOut where
  result : Except RegErr Unit
  sent : List Payload
  trace : List Action
  deriving Repr, DecidableEq

/-- `publish_event`: connect to NATS, build the payload, publish to
JetStream, then close.  The close sits on the success path only; the
handler re-raises `PublishFailed` without closing, so a publish
rejection leaves the connection open. -/
def publish_event (cfg : NATSConfig) (event_data : List (String × String))
    (user_id : String) (ts : String) (f : Faults) : PublishOut :=
  if f.natsConnectFails then
    { result := Except.error ⟨ErrKind.PublishFailed,
        "Failed to publish NATS event: connect to " ++ cfg.server⟩,
      sent := [],
      trace := [] }
  else
    let payload : Payload := ⟨"user_registered", user_id, ts, event_data⟩
    if f.jsPublishFails then
      { result := Except.error ⟨ErrKind.PublishFailed,
          "Failed to publish NATS event: publish to " ++ cfg.subject⟩,
        sent := [payload],
        trace := [Action.natsConnect, Action.jsPublish user_id] }
    else
      { result := Except.ok (),
        sent := [payload],
        trace := [Action.natsConnect, Action.jsPublish user_id, Action.natsClose] }

/-- Observable outcome of one run of `main`. -/
structure RunOut where
  exitCode : Nat
  printedId : Option String
  dbAfter : DB
  trace : List Action
  sent : List Payload
  publishAttempts : List String
  writeOk : Option String
  deriving Repr, DecidableEq

/-- `main`: configs, store connect, then inside `try ... finally
connection.close()`: resolve, write, prepare event data, publish.
`dbAfter` is the durable state once the connection is closed (an open
transaction is discarded); `publishAttempts` records each invocation of
`publish_event` with its user id; `writeOk` the id returned by a
successful `insert_user`. -/
def main (env : Env) (db0 : DB) (ts : String) (f : Faults) : RunOut :=
  match get_database_config env with
  | Except.error _ =>
    { exitCode := 1, printedId := none, dbAfter := db0, trace := [],
      sent := [], publishAttempts := [], writeOk := none }
  | Except.ok _dbCfg =>
  match get_nats_config env with
  | Except.error _ =>
    { exitCode := 1, printedId := none, dbAfter := db0, trace := [],
      sent := [], publishAttempts := [], writeOk := none }
  | Except.ok natsCfg =>
    match get_user_info env (Conn.pending ⟨db0, db0⟩) with
    | (Except.error _, tr) =>
      { exitCode := 1, printedId := none, dbAfter := db0,
        trace := Action.storeConnect :: (tr ++ [Action.storeClose]),
        sent := [], publishAttempts := [], writeOk := none }
    | (Except.ok ui, tr) =>
      match exOk (insert_user ⟨db0, db0⟩ ui f).result with
      | none =>
        { exitCode := 1, printedId := none,
          dbAfter := (insert_user ⟨db0, db0⟩ ui f).conn.committed,
          trace := Action.storeConnect ::
            (tr ++ (insert_user ⟨db0, db0⟩ ui f).trace ++ [Action.storeClose]),
          sent := [], publishAttempts := [], writeOk := none }
      | some uid =>
        match (publish_event natsCfg (prepare_event_data env) uid ts f).result with
        | Except.error _ =>
          { exitCode := 1, printedId := none,
            dbAfter := (insert_user ⟨db0, db0⟩ ui f).conn.committed,
            trace := Action.storeConnect ::
              (tr ++ (insert_user ⟨db0, db0⟩ ui f).trace
                ++ (publish_event natsCfg (prepare_event_data env) uid ts f).trace
                ++ [Action.storeClose]),
            sent := (publish_event natsCfg (prepare_event_data env) uid ts f).sent,
            publishAttempts := [uid], writeOk := some uid }
        | Except.ok _ =>
          { exitCode := 0, printedId := some uid,
            dbAfter := (insert_user ⟨db0, db0⟩ ui f).conn.committed,
            trace := Action.storeConnect ::
              (tr ++ (insert_user ⟨db0, db0⟩ ui f).trace
                ++ (publish_event natsCfg (prepare_event_data env) uid ts f).trace
                ++ [Action.storeClose]),
            sent := (publish_event natsCfg (prepare_event_data env) uid ts f).sent,
            publishAttempts := [uid], writeOk := some uid }

/-- Read-only store queries issued by the reference resolver. -/
def Action.isQuery : Action → Bool
  | Action.queryCustomer _ => true
  | Action.queryRole _ => true
  | _ => false

/-- Broker-side actions. -/
def Action.isNats : Action → Bool
  | Action.natsConnect => true
  | Action.jsPublish _ => true
  | Action.natsClose => true
  | _ => false

/-- Index of the first occurrence of `a` (length of the list when absent). -/
def firstPos (a : Action) : List Action → Nat
  | [] => 0
  | b :: l => if a = b then 0 else firstPos a l + 1

/-! ### Concrete fixtures used by witnesses and counterexamples -/

def cfgEnv : Env :=
  [("DB_HOST","db"),("DB_USER","u"),("DB_PASSWORD","p"),("DB_NAME","kb"),
   ("NATS_SERVER","ns"),("NATS_STREAM","st"),("NATS_SUBJECT","subj"),
   ("NATS_USER","nu"),("NATS_PASSWORD","np")]

def envIds : Env :=
  cfgEnv ++ [("USER_NAME","Alice"),("USER_EMAIL","a@x.com"),
    ("CUSTOMER_ID","c1"),("ROLE_ID","r1")]

def envName : Env :=
  cfgEnv ++ [("USER_NAME","Bob"),("USER_EMAIL","b@x.com"),
    ("CUSTOMER_NAME","Acme"),("ROLE_ID","r1")]

def dbEmpty : DB := ⟨[], [("c1","Acme")], [("r1","admin")], 0, 0⟩

def dbTwoAcme : DB := ⟨[], [("c1","Acme"),("c2","Acme")], [], 0, 0⟩

def rowBob : UserRow := ⟨"uid-9","c1","r1","Bob","a@x.com",5⟩

def dbWithBob : DB := ⟨[rowBob], [("c1","Acme")], [("r1","admin")], 10, 10⟩

def connWithBob : Conn := ⟨dbWithBob, dbWithBob⟩

def uiAlice : UserInfo := ⟨"Alice","a@x.com","c1","r1"⟩

def natsCfg0 : NATSConfig := ⟨"ns","st","subj","nu","np"⟩

def noFaults : Faults := ⟨false, false, false⟩

/-! ### Helper lemmas -/

theorem str_data_append (s t : String) : (s ++ t).data = s.data ++ t.data := by
  cases s
  cases t
  rfl

theorem charsStartsWith_append_self (p s : List Char) :
    charsStartsWith (p ++ s) p = true := by
  induction p with
  | nil => cases s <;> rfl
  | cons c p ih => simp [charsStartsWith, ih]

theorem charsContains_of_startsWith (s pat : List Char)
    (h : charsStartsWith s pat = true) : charsContains s pat = true := by
  cases s with
  | nil => simpa [charsContains] using h
  | cons c s2 => simp [charsContains, h]

theorem charsContains_append_right (s t pat : List Char)
    (h : charsContains t pat = true) : charsContains (s ++ t) pat = true := by
  induction s with
  | nil => simpa using h
  | cons c s2 ih => simp [charsContains, ih]

/-- The MySQL duplicate-key message always satisfies the handler's
substring condition. -/
theorem isDupEmailMsg_dupEntryMsg (v : String) :
    isDupEmailMsg (dupEntryMsg v) = true := by
  unfold isDupEmailMsg dupEntryMsg strContains
  simp only [str_data_append]
  have h1 : charsContains ((("Duplicate entry".data ++ " ".data) ++ v.data)
      ++ " for key users.email".data) "Duplicate entry".data = true := by
    rw [List.append_assoc, List.append_assoc]
    exact charsContains_of_startsWith _ _ (charsStartsWith_append_self _ _)
  have h2 : charsContains ((("Duplicate entry".data ++ " ".data) ++ v.data)
      ++ " for key users.email".data) "email".data = true :=
    charsContains_append_right _ _ _ (by decide)
  rw [Bool.and_eq_true]
  exact ⟨h1, h2⟩

/-- The identifier-recovery query on a table whose only row with email
`e` is a freshly appended `nr` returns `nr.id`. -/
theorem recoverUserId_append_fresh (l : List UserRow) (nr : UserRow) (e : String)
    (h1 : l.any (fun r => r.email == e) = false) (h2 : nr.email = e) :
    recoverUserId (l ++ [nr]) e = some nr.id := by
  unfold recoverUserId
  have hl : l.filter (fun r => r.email == e) = [] := by
    rw [List.filter_eq_nil_iff]
    intro r hr
    have := List.any_eq_false.mp h1 r hr
    simpa using this
  rw [List.filter_append, hl, List.nil_append]
  simp [List.filter, h2, maxByCreated]

/-- Characterization of a successful `insert_user`: the committed table
is the pending table plus a fresh row whose id is the returned one, the
pending view equals the committed view, and the trace is insert,
`LAST_INSERT_ID`, recovery read, commit. -/
theorem insert_user_ok (conn : Conn) (ui : UserInfo) (f : Faults) (uid : String)
    (h : exOk (insert_user conn ui f).result = some uid) :
    ∃ row : UserRow,
      (insert_user conn ui f).conn.committed.users = conn.pending.users ++ [row]
      ∧ row.id = uid ∧ row.email = ui.email
      ∧ (insert_user conn ui f).conn.pending = (insert_user conn ui f).conn.committed
      ∧ (insert_user conn ui f).trace =
          [Action.execInsert, Action.queryLastInsertId,
           Action.queryRecoverId ui.email, Action.commit] := by
  unfold insert_user at h ⊢
  by_cases hdup : (conn.pending.users.any fun r => r.email == ui.email) = true
  · rw [if_pos hdup] at h
    by_cases hmsg : isDupEmailMsg (dupEntryMsg ui.email) = true
    · rw [if_pos hmsg] at h
      simp [exOk] at h
    · rw [if_neg hmsg] at h
      simp [exOk] at h
  · rw [if_neg hdup] at h ⊢
    by_cases hf : f.recoverySelectFails = true
    · rw [if_pos hf] at h
      simp [exOk] at h
    · rw [if_neg hf] at h ⊢
      have hdup' : (conn.pending.users.any fun r => r.email == ui.email) = false := by
        simpa using hdup
      have hrec : recoverUserId (insertedDB conn.pending ui).users ui.email =
          some ("uid-" ++ toString conn.pending.nextId) := by
        unfold insertedDB
        exact recoverUserId_append_fresh _ _ _ hdup' rfl
      rw [hrec] at h ⊢
      simp only [exOk, Option.some.injEq] at h
      subst h
      exact ⟨⟨"uid-" ++ toString conn.pending.nextId, ui.customer_id, ui.role_id,
        ui.name, ui.email, conn.pending.nextTime⟩, rfl, rfl, rfl, rfl, rfl⟩

theorem step_customer_queries (db : DB) (c : Bool) (n v : String) :
    (((if c then lookup_customer_id db n else (Except.ok v, [])) :
      Except RegErr String × List Action).2).all Action.isQuery = true := by
  cases c <;> simp [lookup_customer_id, Action.isQuery]

theorem step_role_queries (db : DB) (c : Bool) (n v : String) :
    (((if c then lookup_role_id db n else (Except.ok v, [])) :
      Except RegErr String × List Action).2).all Action.isQuery = true := by
  cases c <;> simp [lookup_role_id, Action.isQuery]

/-- The reference resolver's trace consists of store queries only. -/
theorem get_user_info_queries (env : Env) (db : DB) :
    ((get_user_info env db).2).all Action.isQuery = true := by
  unfold get_user_info
  cases h1 : get_env_var env "USER_NAME" true none with
  | error e => rfl
  | ok nameV =>
  cases h2 : get_env_var env "USER_EMAIL" true none with
  | error e => rfl
  | ok emailV =>
  simp only []
  by_cases hc : (!(truthy (getenv env "CUSTOMER_ID"))
      && !(truthy (getenv env "CUSTOMER_NAME"))) = true
  · simp [hc]
  · rw [if_neg hc]
    have hstep1 := step_customer_queries db
      (truthy (getenv env "CUSTOMER_NAME") && !(truthy (getenv env "CUSTOMER_ID")))
      ((getenv env "CUSTOMER_NAME").getD "") ((getenv env "CUSTOMER_ID").getD "")
    generalize hs1 : (if truthy (getenv env "CUSTOMER_NAME")
          && !(truthy (getenv env "CUSTOMER_ID")) then
        lookup_customer_id db ((getenv env "CUSTOMER_NAME").getD "")
      else (Except.ok ((getenv env "CUSTOMER_ID").getD ""), [])) = s1
    rw [hs1] at hstep1
    obtain ⟨r1, tr1⟩ := s1
    cases r1 with
    | error e => simpa using hstep1
    | ok cid =>
      simp only []
      by_cases hr : (!(truthy (getenv env "ROLE_ID"))
          && !(truthy (getenv env "ROLE_NAME"))) = true
      · simp [hr]
        simpa using hstep1
      · rw [if_neg hr]
        have hstep2 := step_role_queries db
          (truthy (getenv env "ROLE_NAME") && !(truthy (getenv env "ROLE_ID")))
          ((getenv env "ROLE_NAME").getD "") ((getenv env "ROLE_ID").getD "")
        generalize hs2 : (if truthy (getenv env "ROLE_NAME")
              && !(truthy (getenv env "ROLE_ID")) then
            lookup_role_id db ((getenv env "ROLE_NAME").getD "")
          else (Except.ok ((getenv env "ROLE_ID").getD ""), [])) = s2
        rw [hs2] at hstep2
        obtain ⟨r2, tr2⟩ := s2
        cases r2 <;> simp_all [List.all_append]

theorem query_only_mem {tr : List Action} (h : tr.all Action.isQuery = true)
    {a : Action} (ha : a ∈ tr) : a.isQuery = true :=
  List.all_eq_true.mp h a ha

theorem jsPublish_not_mem_queries {tr : List Action}
    (h : tr.all Action.isQuery = true) (u : String) :
    Action.jsPublish u ∉ tr := by
  intro hm
  have := query_only_mem h hm
  simp [Action.isQuery] at this

theorem queries_not_nats {tr : List Action} (h : tr.all Action.isQuery = true) :
    tr.all (fun a => !(a.isNats)) = true := by
  rw [List.all_eq_true] at h ⊢
  intro a ha
  have := h a ha
  cases a <;> simp_all [Action.isQuery, Action.isNats]

/-! ### C1 — duplicate email: DuplicateUser, but no rollback -/

/-- C1 counterexample: against a store already holding a row with email
`a@x.com`, the duplicate insert fails with `DuplicateUser` and leaves
the row count unchanged, but NO rollback action occurs before the error
is reported (the `IntegrityError` handler re-raises without calling
`connection.rollback()`), contradicting the claim that the transaction
is rolled back before the error is reported. -/
theorem C1_counterexample :
    exKind (insert_user connWithBob uiAlice noFaults).result = some ErrKind.DuplicateUser
    ∧ ((insert_user connWithBob uiAlice noFaults).trace.contains Action.rollback) = false
    ∧ (insert_user connWithBob uiAlice noFaults).conn = connWithBob := by
  decide

/-- C1 (amended): whenever the pending users table already holds a row
with the request's email, `insert_user` fails with the `DuplicateUser`
kind and the connection state (hence the users row count) is unchanged —
no second row is ever produced — but no rollback is issued on this path;
the trace is the single rejected INSERT. -/
theorem C1_amended_duplicate_no_rollback (conn : Conn) (ui : UserInfo) (f : Faults)
    (hdup : (conn.pending.users.any fun r => r.email == ui.email) = true) :
    exKind (insert_user conn ui f).result = some ErrKind.DuplicateUser
    ∧ (insert_user conn ui f).conn = conn
    ∧ (insert_user conn ui f).trace = [Action.execInsert] := by
  unfold insert_user
  rw [if_pos hdup, if_pos (isDupEmailMsg_dupEntryMsg ui.email)]
  exact ⟨rfl, rfl, rfl⟩

theorem C1_witness :
    (connWithBob.pending.users.any fun r => r.email == uiAlice.email) = true
    ∧ (exKind (insert_user connWithBob uiAlice noFaults).result = some ErrKind.DuplicateUser
      ∧ (insert_user connWithBob uiAlice noFaults).conn = connWithBob
      ∧ (insert_user connWithBob uiAlice noFaults).trace = [Action.execInsert]) :=
  ⟨by decide, C1_amended_duplicate_no_rollback connWithBob uiAlice noFaults (by decide)⟩

/-! ### C4 — id recovery and commit policy of the write step -/

/-- C4 counterexample: a failing write step (duplicate email) whose
trace contains no rollback, contradicting the claim that any failure in
either step triggers a rollback of the transaction before the error is
reported. -/
theorem C4_counterexample :
    exOk (insert_user connWithBob uiAlice noFaults).result = none
    ∧ ((insert_user connWithBob uiAlice noFaults).trace.contains Action.rollback) = false := by
  decide

/-- C4 (amended): the returned identifier is exactly the result of the
email re-query (ordered by creation time descending, limited to one row)
over the post-insert table; the commit happens exactly on success and is
then the last action; the durable state advances exactly on success; and
a rollback is issued exactly on the non-integrity-error failures — an
`IntegrityError` (duplicate email) is re-raised without rollback. -/
theorem C4_amended_write_step_policy (conn : Conn) (ui : UserInfo) (f : Faults) :
    (exOk (insert_user conn ui f).result =
      (if (conn.pending.users.any fun r => r.email == ui.email) || f.recoverySelectFails
       then none
       else recoverUserId (insertedDB conn.pending ui).users ui.email))
    ∧ ((Action.commit ∈ (insert_user conn ui f).trace) ↔
        (exOk (insert_user conn ui f).result).isSome = true)
    ∧ ((insert_user conn ui f).trace.getLast? = some Action.commit ↔
        (exOk (insert_user conn ui f).result).isSome = true)
    ∧ ((insert_user conn ui f).conn.committed =
        (if (exOk (insert_user conn ui f).result).isSome then insertedDB conn.pending ui
         else conn.committed))
    ∧ ((Action.rollback ∈ (insert_user conn ui f).trace) ↔
        (exOk (insert_user conn ui f).result = none
          ∧ (conn.pending.users.any fun r => r.email == ui.email) = false)) := by
  unfold insert_user
  by_cases hdup : (conn.pending.users.any fun r => r.email == ui.email) = true
  · rw [if_pos hdup, if_pos (isDupEmailMsg_dupEntryMsg ui.email)]
    simp [exOk, hdup]
  · rw [if_neg hdup]
    have hdup' : (conn.pending.users.any fun r => r.email == ui.email) = false := by
      simpa using hdup
    by_cases hf : f.recoverySelectFails = true
    · rw [if_pos hf]
      simp [exOk, hdup', hf]
    · rw [if_neg hf]
      have hf' : f.recoverySelectFails = false := by simpa using hf
      cases hrec : recoverUserId (insertedDB conn.pending ui).users ui.email with
      | none => simp [exOk, hdup', hf']
      | some u => simp [exOk, hdup', hf']

theorem C4_witness :
    exOk (insert_user ⟨dbEmpty, dbEmpty⟩ uiAlice noFaults).result =
      (if (dbEmpty.users.any fun r => r.email == uiAlice.email) || noFaults.recoverySelectFails
       then none
       else recoverUserId (insertedDB dbEmpty uiAlice).users uiAlice.email) :=
  (C4_amended_write_step_policy ⟨dbEmpty, dbEmpty⟩ uiAlice noFaults).1

/-! ### C5 — name resolution and multiple matches -/

/-- C5 counterexample: with two `corporate_customers` rows named `Acme`
(zero or multiple matches should, per the claim, fail with
`ReferenceNotFound`), the lookup nevertheless succeeds with the first
row's id, because `fetchone` never inspects the match count. -/
theorem C5_counterexample :
    (dbTwoAcme.customers.filter (fun p => p.2 == "Acme")).length = 2
    ∧ (lookup_customer_id dbTwoAcme "Acme").1 = Except.ok "c1" := by
  decide

/-- C5 (amended): a name lookup (customer or role) fails with
`ReferenceNotFound` exactly when NO row matches; whenever at least one
row matches it succeeds with the first matching row's id — multiple
matches are not detected or rejected.  Each lookup issues exactly one
store query. -/
theorem C5_amended_lookup_first_match (db : DB) (nm : String) :
    (exKind (lookup_customer_id db nm).1 = some ErrKind.ReferenceNotFound ↔
      db.customers.filter (fun p => p.2 == nm) = [])
    ∧ exOk (lookup_customer_id db nm).1 =
        ((db.customers.filter (fun p => p.2 == nm)).head?).map Prod.fst
    ∧ (lookup_customer_id db nm).2 = [Action.queryCustomer nm]
    ∧ (exKind (lookup_role_id db nm).1 = some ErrKind.ReferenceNotFound ↔
      db.roles.filter (fun p => p.2 == nm) = [])
    ∧ exOk (lookup_role_id db nm).1 =
        ((db.roles.filter (fun p => p.2 == nm)).head?).map Prod.fst := by
  unfold lookup_customer_id lookup_role_id
  cases hcf : db.customers.filter (fun p => p.2 == nm) <;>
    cases hrf : db.roles.filter (fun p => p.2 == nm) <;>
      simp [exOk, exKind]

theorem C5_witness :
    exOk (lookup_customer_id dbTwoAcme "Acme").1 =
      ((dbTwoAcme.customers.filter (fun p => p.2 == "Acme")).head?).map Prod.fst :=
  (C5_amended_lookup_first_match dbTwoAcme "Acme").2.1

/-! ### C6 — direct ids pass through with zero store queries -/

theorem get_env_var_required_some (env : Env) (n : String)
    (h : truthy (getenv env n) = true) :
    get_env_var env n true none = Except.ok (getenv env n) := by
  unfold get_env_var
  cases hg : getenv env n with
  | none => rw [hg] at h; simp [truthy] at h
  | some s => rw [hg] at h; simp [h]

/-- C6: for any request carrying concrete CUSTOMER_ID and ROLE_ID (and
the required name/email), the resolver returns both identifiers
unchanged with an empty query trace, for EVERY store state — so it
performs zero store queries and no existence validation. -/
theorem C6_direct_ids_pass_through (env : Env) (db : DB)
    (hn : truthy (getenv env "USER_NAME") = true)
    (he : truthy (getenv env "USER_EMAIL") = true)
    (hc : truthy (getenv env "CUSTOMER_ID") = true)
    (hr : truthy (getenv env "ROLE_ID") = true) :
    get_user_info env db =
      (Except.ok ⟨(getenv env "USER_NAME").getD "", (getenv env "USER_EMAIL").getD "",
        (getenv env "CUSTOMER_ID").getD "", (getenv env "ROLE_ID").getD ""⟩, []) := by
  unfold get_user_info
  rw [get_env_var_required_some env "USER_NAME" hn,
      get_env_var_required_some env "USER_EMAIL" he]
  simp [hc, hr]

theorem C6_witness :
    truthy (getenv envIds "USER_NAME") = true
    ∧ truthy (getenv envIds "USER_EMAIL") = true
    ∧ truthy (getenv envIds "CUSTOMER_ID") = true
    ∧ truthy (getenv envIds "ROLE_ID") = true
    ∧ get_user_info envIds dbEmpty =
        (Except.ok ⟨"Alice", "a@x.com", "c1", "r1"⟩, []) := by
  refine ⟨by decide, by decide, by decide, by decide, ?_⟩
  exact (C6_direct_ids_pass_through envIds dbEmpty (by decide) (by decide)
    (by decide) (by decide)).trans (by decide)

/-! ### C8 — broker connection leak on publish failure -/

/-- C8: the code contradicts the guaranteed-release contract.  When the
NATS connection is acquired and the JetStream publish then fails, the
step reports `PublishFailed` with the connection still open: the trace
contains `natsConnect` but no `natsClose` (the close call sits after the
publish inside `try`, with no `finally`). -/
theorem C8_connection_left_open_on_publish_failure :
    exKind (publish_event natsCfg0 [("user_name", "Alice")] "uid-0" "t0"
        ⟨false, false, true⟩).result = some ErrKind.PublishFailed
    ∧ ((publish_event natsCfg0 [("user_name", "Alice")] "uid-0" "t0"
        ⟨false, false, true⟩).trace.contains Action.natsConnect) = true
    ∧ ((publish_event natsCfg0 [("user_name", "Alice")] "uid-0" "t0"
        ⟨false, false, true⟩).trace.contains Action.natsClose) = false := by
  decide

/-- The write step never performs broker actions. -/
theorem insert_user_trace_store (conn : Conn) (ui : UserInfo) (f : Faults) :
    ((insert_user conn ui f).trace).all (fun a => !(a.isNats)) = true := by
  unfold insert_user
  repeat' split
  all_goals rfl

theorem nats_not_mem_of_not_nats {tr : List Action}
    (h : tr.all (fun a => !(a.isNats)) = true) (u : String) :
    Action.jsPublish u ∉ tr := by
  intro hm
  have := List.all_eq_true.mp h _ hm
  simp [Action.isNats] at this

/-- Exhaustive description of the three publish outcomes. -/
theorem publish_event_cases (cfg : NATSConfig) (ed : List (String × String))
    (uid ts : String) (f : Faults) :
    (f.natsConnectFails = true ∧ publish_event cfg ed uid ts f =
      { result := Except.error ⟨ErrKind.PublishFailed,
          "Failed to publish NATS event: connect to " ++ cfg.server⟩,
        sent := [], trace := [] })
    ∨ (f.natsConnectFails = false ∧ f.jsPublishFails = true
      ∧ publish_event cfg ed uid ts f =
        { result := Except.error ⟨ErrKind.PublishFailed,
            "Failed to publish NATS event: publish to " ++ cfg.subject⟩,
          sent := [⟨"user_registered", uid, ts, ed⟩],
          trace := [Action.natsConnect, Action.jsPublish uid] })
    ∨ (f.natsConnectFails = false ∧ f.jsPublishFails = false
      ∧ publish_event cfg ed uid ts f =
        { result := Except.ok (),
          sent := [⟨"user_registered", uid, ts, ed⟩],
          trace := [Action.natsConnect, Action.jsPublish uid, Action.natsClose] }) := by
  unfold publish_event
  by_cases h1 : f.natsConnectFails = true
  · exact Or.inl ⟨h1, by rw [if_pos h1]⟩
  · have h1' : f.natsConnectFails = false := by simpa using h1
    by_cases h2 : f.jsPublishFails = true
    · exact Or.inr (Or.inl ⟨h1', h2, by rw [if_neg h1, if_pos h2]⟩)
    · have h2' : f.jsPublishFails = false := by simpa using h2
      exact Or.inr (Or.inr ⟨h1', h2', by rw [if_neg h1, if_neg h2]⟩)

/-! ### C2 — publish failure never undoes the committed write -/

/-- C2: in every run whose write step succeeded (returning `uid`) and
which nevertheless failed (given a successful write, the only later
failure point is the publish step), the final durable users table is the
initial one plus exactly the row created by the write, whose id is the
returned identifier — the publish failure modifies nothing. -/
theorem C2_write_survives_publish_failure (env : Env) (db0 : DB) (ts : String)
    (f : Faults) (uid : String)
    (hW : (main env db0 ts f).writeOk = some uid)
    (hF : (main env db0 ts f).exitCode = 1) :
    ∃ row : UserRow,
      (main env db0 ts f).dbAfter.users = db0.users ++ [row] ∧ row.id = uid := by
  cases hdc : get_database_config env with
  | error e => simp [main, hdc] at hW
  | ok dbc =>
  cases hnc : get_nats_config env with
  | error e => simp [main, hdc, hnc] at hW
  | ok nc =>
  rcases hgui : get_user_info env (Conn.pending ⟨db0, db0⟩) with ⟨rgui, tr⟩
  cases rgui with
  | error e => simp [main, hdc, hnc, hgui] at hW
  | ok ui =>
  cases hio : exOk (insert_user ⟨db0, db0⟩ ui f).result with
  | none => simp [main, hdc, hnc, hgui, hio] at hW
  | some uid0 =>
  obtain ⟨row, hu, hid, hem, hpend, htr⟩ := insert_user_ok ⟨db0, db0⟩ ui f uid0 hio
  cases hpo : (publish_event nc (prepare_event_data env) uid0 ts f).result with
  | error e2 =>
    have hW2 : uid0 = uid := by
      simp [main, hdc, hnc, hgui, hio, hpo] at hW
      exact hW
    simp only [main, hdc, hnc, hgui, hio, hpo]
    exact ⟨row, by simpa using hu, hW2 ▸ hid⟩
  | ok u2 =>
    simp [main, hdc, hnc, hgui, hio, hpo] at hF

theorem C2_witness :
    (main envIds dbEmpty "t0" ⟨false, true, false⟩).writeOk = some "uid-0"
    ∧ (main envIds dbEmpty "t0" ⟨false, true, false⟩).exitCode = 1
    ∧ ∃ row : UserRow,
        (main envIds dbEmpty "t0" ⟨false, true, false⟩).dbAfter.users =
          dbEmpty.users ++ [row] ∧ row.id = "uid-0" :=
  ⟨by decide, by decide,
    C2_write_survives_publish_failure envIds dbEmpty "t0" ⟨false, true, false⟩ "uid-0"
      (by decide) (by decide)⟩

/-! ### C3 — a successful write is followed by exactly one publish with its id -/

/-- C3: in every run, the publish step is invoked exactly once with the
identifier returned by the successful write and never otherwise (no
publish attempt without or before a successful write); moreover every
wire-level JetStream publish in the trace carries exactly that
identifier and occurs strictly after the transaction commit. -/
theorem C3_publish_follows_write (env : Env) (db0 : DB) (ts : String) (f : Faults) :
    (main env db0 ts f).publishAttempts =
      ((main env db0 ts f).writeOk).elim [] (fun u => [u])
    ∧ ∀ u : String, Action.jsPublish u ∈ (main env db0 ts f).trace →
        (main env db0 ts f).writeOk = some u
        ∧ ∃ s t : List Action,
            (main env db0 ts f).trace = s ++ Action.commit :: t
            ∧ Action.jsPublish u ∈ t := by
  cases hdc : get_database_config env with
  | error e => refine ⟨by simp [main, hdc], fun u hmem => ?_⟩; simp [main, hdc] at hmem
  | ok dbc =>
  cases hnc : get_nats_config env with
  | error e =>
    refine ⟨by simp [main, hdc, hnc], fun u hmem => ?_⟩
    simp [main, hdc, hnc] at hmem
  | ok nc =>
  rcases hgui : get_user_info env (Conn.pending ⟨db0, db0⟩) with ⟨rgui, tr⟩
  have hq : tr.all (fun a => !(a.isNats)) = true := by
    have h0 := get_user_info_queries env (Conn.pending ⟨db0, db0⟩)
    rw [hgui] at h0
    exact queries_not_nats h0
  have htrn := fun u => nats_not_mem_of_not_nats hq u
  cases rgui with
  | error e =>
    refine ⟨by simp [main, hdc, hnc, hgui], fun u hmem => ?_⟩
    simp [main, hdc, hnc, hgui, List.mem_append, htrn u] at hmem
  | ok ui =>
  cases hio : exOk (insert_user ⟨db0, db0⟩ ui f).result with
  | none =>
    have hin := nats_not_mem_of_not_nats (insert_user_trace_store ⟨db0, db0⟩ ui f)
    refine ⟨by simp [main, hdc, hnc, hgui, hio], fun u hmem => ?_⟩
    simp [main, hdc, hnc, hgui, hio, List.mem_append, htrn u, hin u] at hmem
  | some uid0 =>
  obtain ⟨row, hu, hid, hem, hpend, htr⟩ := insert_user_ok ⟨db0, db0⟩ ui f uid0 hio
  rcases publish_event_cases nc (prepare_event_data env) uid0 ts f with
    ⟨h1, hpe⟩ | ⟨h1, h2, hpe⟩ | ⟨h1, h2, hpe⟩
  · refine ⟨by simp [main, hdc, hnc, hgui, hio, hpe], fun u hmem => ?_⟩
    simp [main, hdc, hnc, hgui, hio, hpe, htr, List.mem_append, htrn u] at hmem
  · constructor
    · simp [main, hdc, hnc, hgui, hio, hpe]
    · intro u hmem
      simp only [main, hdc, hnc, hgui, hio, hpe, htr] at hmem ⊢
      have hu0 : u = uid0 := by
        simp [List.mem_append, htrn u] at hmem
        exact hmem
      subst hu0
      refine ⟨rfl, Action.storeConnect :: (tr ++ [Action.execInsert,
        Action.queryLastInsertId, Action.queryRecoverId ui.email]),
        [Action.natsConnect, Action.jsPublish u, Action.storeClose], ?_, by simp⟩
      simp [List.append_assoc]
  · constructor
    · simp [main, hdc, hnc, hgui, hio, hpe]
    · intro u hmem
      simp only [main, hdc, hnc, hgui, hio, hpe, htr] at hmem ⊢
      have hu0 : u = uid0 := by
        simp [List.mem_append, htrn u] at hmem
        exact hmem
      subst hu0
      refine ⟨rfl, Action.storeConnect :: (tr ++ [Action.execInsert,
        Action.queryLastInsertId, Action.queryRecoverId ui.email]),
        [Action.natsConnect, Action.jsPublish u, Action.natsClose,
          Action.storeClose], ?_, by simp⟩
      simp [List.append_assoc]

theorem C3_witness :
    Action.jsPublish "uid-0" ∈ (main envIds dbEmpty "t0" noFaults).trace
    ∧ ((main envIds dbEmpty "t0" noFaults).writeOk = some "uid-0"
      ∧ ∃ s t : List Action,
          (main envIds dbEmpty "t0" noFaults).trace = s ++ Action.commit :: t
          ∧ Action.jsPublish "uid-0" ∈ t) :=
  ⟨by decide,
    (C3_publish_follows_write envIds dbEmpty "t0" noFaults).2 "uid-0" (by decide)⟩

/-! ### C9 — store connection is held across the broker call -/

/-- C9 counterexample: in a successful run the broker call begins
(`natsConnect`) BEFORE the store connection is released (`storeClose` is
the last action, emitted by the `finally` block after `publish_event`
returns), contradicting the claim that the store connection is released
before the broker call begins. -/
theorem C9_counterexample :
    ((main envIds dbEmpty "t0" noFaults).trace.contains Action.natsConnect) = true
    ∧ ((main envIds dbEmpty "t0" noFaults).trace.contains Action.storeClose) = true
    ∧ firstPos Action.natsConnect (main envIds dbEmpty "t0" noFaults).trace
        < firstPos Action.storeClose (main envIds dbEmpty "t0" noFaults).trace := by
  decide

/-- C9 (amended): in every run that reaches the publish step, the store
commit strictly precedes every broker action (the write is durable
before the broker call begins), but the store connection is NOT released
before the broker call: it stays open across the whole publish step and
is closed as the very last action of the run. -/
theorem C9_amended_commit_then_broker_then_close (env : Env) (db0 : DB)
    (ts : String) (f : Faults)
    (h : (main env db0 ts f).publishAttempts ≠ []) :
    ∃ s t : List Action,
      (main env db0 ts f).trace = s ++ Action.commit :: (t ++ [Action.storeClose])
      ∧ s.all (fun a => !(a.isNats)) = true
      ∧ t.all (fun a => a.isNats) = true := by
  cases hdc : get_database_config env with
  | error e => simp [main, hdc] at h
  | ok dbc =>
  cases hnc : get_nats_config env with
  | error e => simp [main, hdc, hnc] at h
  | ok nc =>
  rcases hgui : get_user_info env (Conn.pending ⟨db0, db0⟩) with ⟨rgui, tr⟩
  have hq : tr.all (fun a => !(a.isNats)) = true := by
    have h0 := get_user_info_queries env (Conn.pending ⟨db0, db0⟩)
    rw [hgui] at h0
    exact queries_not_nats h0
  cases rgui with
  | error e => simp [main, hdc, hnc, hgui] at h
  | ok ui =>
  cases hio : exOk (insert_user ⟨db0, db0⟩ ui f).result with
  | none => simp [main, hdc, hnc, hgui, hio] at h
  | some uid0 =>
  obtain ⟨row, hu, hid, hem, hpend, htr⟩ := insert_user_ok ⟨db0, db0⟩ ui f uid0 hio
  rcases publish_event_cases nc (prepare_event_data env) uid0 ts f with
    ⟨h1, hpe⟩ | ⟨h1, h2, hpe⟩ | ⟨h1, h2, hpe⟩
  · refine ⟨Action.storeConnect :: (tr ++ [Action.execInsert,
      Action.queryLastInsertId, Action.queryRecoverId ui.email]), [], ?_, ?_, ?_⟩
    · simp only [main, hdc, hnc, hgui, hio, hpe, htr]
      simp [List.append_assoc]
    · rw [List.all_cons, List.all_append, hq]
      simp [Action.isNats]
    · simp
  · refine ⟨Action.storeConnect :: (tr ++ [Action.execInsert,
      Action.queryLastInsertId, Action.queryRecoverId ui.email]),
      [Action.natsConnect, Action.jsPublish uid0], ?_, ?_, ?_⟩
    · simp only [main, hdc, hnc, hgui, hio, hpe, htr]
      simp [List.append_assoc]
    · rw [List.all_cons, List.all_append, hq]
      simp [Action.isNats]
    · simp [Action.isNats]
  · refine ⟨Action.storeConnect :: (tr ++ [Action.execInsert,
      Action.queryLastInsertId, Action.queryRecoverId ui.email]),
      [Action.natsConnect, Action.jsPublish uid0, Action.natsClose], ?_, ?_, ?_⟩
    · simp only [main, hdc, hnc, hgui, hio, hpe, htr]
      simp [List.append_assoc]
    · rw [List.all_cons, List.all_append, hq]
      simp [Action.isNats]
    · simp [Action.isNats]

theorem C9_witness :
    (main envIds dbEmpty "t0" noFaults).publishAttempts ≠ []
    ∧ ∃ s t : List Action,
        (main envIds dbEmpty "t0" noFaults).trace =
          s ++ Action.commit :: (t ++ [Action.storeClose])
        ∧ s.all (fun a => !(a.isNats)) = true
        ∧ t.all (fun a => a.isNats) = true :=
  ⟨by decide,
    C9_amended_commit_then_broker_then_close envIds dbEmpty "t0" noFaults (by decide)⟩

/-! ### Event-data lemmas for C7 and C10 -/

theorem filterMap_evVar_keys (env : Env) (l : List String) :
    (l.filterMap (evVar env)).map Prod.fst =
      (l.filter (fun v => truthy (getenv env v))).map lowerStr := by
  induction l with
  | nil => rfl
  | cons V l ih =>
    by_cases h : truthy (getenv env V) = true
    · simp [evVar, List.filterMap_cons, List.filter_cons, h, ih]
    · have h' : truthy (getenv env V) = false := by simpa using h
      simp [evVar, List.filterMap_cons, List.filter_cons, h', ih]

theorem filterMap_evVar_values (env : Env) (l : List String) :
    ∀ kv ∈ l.filterMap (evVar env),
      ∃ V, V ∈ l ∧ kv.1 = lowerStr V ∧ getenv env V = some kv.2 := by
  induction l with
  | nil => simp
  | cons V l ih =>
    intro kv hkv
    by_cases ht : truthy (getenv env V) = true
    · have he : evVar env V = some (lowerStr V, (getenv env V).getD "") := by
        unfold evVar
        rw [if_pos ht]
      simp only [List.filterMap_cons, he] at hkv
      rcases List.mem_cons.mp hkv with h | h
      · subst h
        cases hgv : getenv env V with
        | none => rw [hgv] at ht; simp [truthy] at ht
        | some s => exact ⟨V, List.mem_cons_self _ _, rfl, by simp [hgv]⟩
      · obtain ⟨W, hW, hs⟩ := ih kv h
        exact ⟨W, List.mem_cons_of_mem _ hW, hs⟩
    · have he : evVar env V = none := by
        unfold evVar
        rw [if_neg ht]
      simp only [List.filterMap_cons, he] at hkv
      obtain ⟨W, hW, hs⟩ := ih kv hkv
      exact ⟨W, List.mem_cons_of_mem _ hW, hs⟩

theorem filterMap_evVar_agree (env1 env2 : Env) (l : List String)
    (h : ∀ V ∈ l, getenv env1 V = getenv env2 V) :
    l.filterMap (evVar env1) = l.filterMap (evVar env2) := by
  induction l with
  | nil => rfl
  | cons V l ih =>
    have hV := h V (List.mem_cons_self _ _)
    rw [List.filterMap_cons, List.filterMap_cons,
      ih (fun W hW => h W (List.mem_cons_of_mem _ hW))]
    unfold evVar
    rw [hV]

/-- Two environments agreeing on the six user variables produce the same
event data: no other variable can influence (or enter) the mapping. -/
theorem prepare_event_data_agree (env1 env2 : Env)
    (h : ∀ V ∈ userVars, getenv env1 V = getenv env2 V) :
    prepare_event_data env1 = prepare_event_data env2 :=
  filterMap_evVar_agree env1 env2 userVars h

/-! ### C7 — published data holds the supplied attributes, not derived ids -/

/-- C7 counterexample: a successful run that supplied only
`CUSTOMER_NAME` (resolution derived the id `c1` for it).  An event was
published, yet its `data` mapping has no `customer_id` key at all — the
derived identifier is NOT included, contradicting the claim. -/
theorem C7_counterexample :
    (main envName dbEmpty "t0" noFaults).exitCode = 0
    ∧ exOk (lookup_customer_id dbEmpty "Acme").1 = some "c1"
    ∧ (main envName dbEmpty "t0" noFaults).sent.length = 1
    ∧ ((main envName dbEmpty "t0" noFaults).sent.all
        (fun p => (p.data.find? (fun kv => kv.1 == "customer_id")).isNone)) = true := by
  decide

/-- C7 (amended): in every successful run the single published event
carries `user_id` equal to the write's identifier, timestamp `ts`, and a
`data` mapping holding exactly the originally supplied request
attributes: its keys are the lower-casings of precisely the truthy user
variables, and each value is the verbatim environment value of the
corresponding (upper-cased) variable.  Identifiers derived by name
resolution are NOT added to `data`. -/
theorem C7_amended_data_is_supplied_attrs (env : Env) (db0 : DB) (ts : String)
    (f : Faults) (uid : String)
    (hW : (main env db0 ts f).writeOk = some uid)
    (hS : (main env db0 ts f).exitCode = 0) :
    (main env db0 ts f).sent = [⟨"user_registered", uid, ts, prepare_event_data env⟩]
    ∧ (prepare_event_data env).map Prod.fst =
        (userVars.filter (fun v => truthy (getenv env v))).map lowerStr
    ∧ ∀ kv ∈ prepare_event_data env, getenv env (upperStr kv.1) = some kv.2 := by
  refine ⟨?_, filterMap_evVar_keys env userVars, ?_⟩
  · cases hdc : get_database_config env with
    | error e => simp [main, hdc] at hW
    | ok dbc =>
    cases hnc : get_nats_config env with
    | error e => simp [main, hdc, hnc] at hW
    | ok nc =>
    rcases hgui : get_user_info env (Conn.pending ⟨db0, db0⟩) with ⟨rgui, tr⟩
    cases rgui with
    | error e => simp [main, hdc, hnc, hgui] at hW
    | ok ui =>
    cases hio : exOk (insert_user ⟨db0, db0⟩ ui f).result with
    | none => simp [main, hdc, hnc, hgui, hio] at hW
    | some uid0 =>
    rcases publish_event_cases nc (prepare_event_data env) uid0 ts f with
      ⟨h1, hpe⟩ | ⟨h1, h2, hpe⟩ | ⟨h1, h2, hpe⟩
    · simp [main, hdc, hnc, hgui, hio, hpe] at hS
    · simp [main, hdc, hnc, hgui, hio, hpe] at hS
    · have hW2 : uid0 = uid := by
        simp [main, hdc, hnc, hgui, hio, hpe] at hW
        exact hW
      subst hW2
      simp [main, hdc, hnc, hgui, hio, hpe]
  · intro kv hkv
    obtain ⟨V, hV, h1, h2⟩ := filterMap_evVar_values env userVars kv hkv
    have hVu : upperStr (lowerStr V) = V := by
      simp only [userVars, List.mem_cons, List.not_mem_nil, or_false] at hV
      rcases hV with rfl | rfl | rfl | rfl | rfl | rfl <;> decide
    rw [h1, hVu]
    exact h2

theorem C7_witness :
    (main envName dbEmpty "t0" noFaults).writeOk = some "uid-0"
    ∧ (main envName dbEmpty "t0" noFaults).exitCode = 0
    ∧ ((main envName dbEmpty "t0" noFaults).sent =
        [⟨"user_registered", "uid-0", "t0", prepare_event_data envName⟩]
      ∧ (prepare_event_data envName).map Prod.fst =
          (userVars.filter (fun v => truthy (getenv envName v))).map lowerStr
      ∧ ∀ kv ∈ prepare_event_data envName,
          getenv envName (upperStr kv.1) = some kv.2) :=
  ⟨by decide, by decide,
    C7_amended_data_is_supplied_attrs envName dbEmpty "t0" noFaults "uid-0"
      (by decide) (by decide)⟩

/-! ### C10 — config and credentials never reach the payload -/

/-- The database and broker connection variables read by the script. -/
def dbNatsVars : List String :=
  ["DB_HOST", "DB_PORT", "DB_USER", "DB_PASSWORD", "DB_NAME",
   "NATS_SERVER", "NATS_STREAM", "NATS_SUBJECT", "NATS_USER", "NATS_PASSWORD"]

theorem getenv_cons_ne (n v V : String) (env : Env) (h : (n == V) = false) :
    getenv ((n, v) :: env) V = getenv env V := by
  simp [getenv, List.find?_cons, h]

/-- C10: the event-data mapping is a function of the six user-attribute
variables alone.  Two environments agreeing on those variables yield
identical data (so `DB_*`/`NATS_*` values never influence it); binding
any `DB_*`/`NATS_*` variable changes nothing; every entry of the data
is the verbatim value of one of the six user variables under its
lower-cased name; and every published payload's `data` field is exactly
that mapping. -/
theorem C10_payload_free_of_config (env1 env2 : Env) (db0 : DB) (ts : String)
    (f : Faults) (n v : String)
    (hagree : (userVars.all fun V => getenv env1 V == getenv env2 V) = true)
    (hn : n ∈ dbNatsVars) :
    prepare_event_data env1 = prepare_event_data env2
    ∧ prepare_event_data ((n, v) :: env1) = prepare_event_data env1
    ∧ ((prepare_event_data env1).all
        (fun kv => userVars.any
          (fun V => kv.1 == lowerStr V && getenv env1 V == some kv.2))) = true
    ∧ ((main env1 db0 ts f).sent.all
        (fun p => p.data == prepare_event_data env1)) = true := by
  have hag : ∀ V ∈ userVars, getenv env1 V = getenv env2 V := by
    intro V hV
    exact eq_of_beq (List.all_eq_true.mp hagree V hV)
  refine ⟨prepare_event_data_agree env1 env2 hag, ?_, ?_, ?_⟩
  · apply prepare_event_data_agree
    intro V hV
    apply getenv_cons_ne
    simp only [dbNatsVars, List.mem_cons, List.not_mem_nil, or_false] at hn
    simp only [userVars, List.mem_cons, List.not_mem_nil, or_false] at hV
    rcases hn with rfl | rfl | rfl | rfl | rfl | rfl | rfl | rfl | rfl | rfl <;>
      rcases hV with rfl | rfl | rfl | rfl | rfl | rfl <;> decide
  · rw [List.all_eq_true]
    intro kv hkv
    obtain ⟨V, hV, h1, h2⟩ := filterMap_evVar_values env1 userVars kv hkv
    rw [List.any_eq_true]
    exact ⟨V, hV, by simp [h1, h2]⟩
  · cases hdc : get_database_config env1 with
    | error e => simp [main, hdc]
    | ok dbc =>
    cases hnc : get_nats_config env1 with
    | error e => simp [main, hdc, hnc]
    | ok nc =>
    rcases hgui : get_user_info env1 (Conn.pending ⟨db0, db0⟩) with ⟨rgui, tr⟩
    cases rgui with
    | error e => simp [main, hdc, hnc, hgui]
    | ok ui =>
    cases hio : exOk (insert_user ⟨db0, db0⟩ ui f).result with
    | none => simp [main, hdc, hnc, hgui, hio]
    | some uid0 =>
    rcases publish_event_cases nc (prepare_event_data env1) uid0 ts f with
      ⟨h1, hpe⟩ | ⟨h1, h2, hpe⟩ | ⟨h1, h2, hpe⟩ <;>
      simp [main, hdc, hnc, hgui, hio, hpe]

theorem C10_witness :
    (userVars.all fun V => getenv envIds V == getenv envIds V) = true
    ∧ "DB_PASSWORD" ∈ dbNatsVars
    ∧ (prepare_event_data envIds = prepare_event_data envIds
      ∧ prepare_event_data (("DB_PASSWORD", "hunter2") :: envIds) = prepare_event_data envIds
      ∧ ((prepare_event_data envIds).all
          (fun kv => userVars.any
            (fun V => kv.1 == lowerStr V && getenv envIds V == some kv.2))) = true
      ∧ ((main envIds dbEmpty "t0" noFaults).sent.all
          (fun p => p.data == prepare_event_data envIds)) = true) :=
  ⟨by decide, by decide,
    C10_payload_free_of_config envIds envIds dbEmpty "t0" noFaults
      "DB_PASSWORD" "hunter2" (by decide) (by decide)⟩

end RegisterUser
